import Mathlib

/-!
# Verification of the authentication/authorization core

Shallow embedding of the auth module (`AuthService.authenticateUser`,
`AuthService.registerUser`, `requireAuth`, `requireRole`, `loadUserContext`)
and the auth HTTP routes (`/api/auth/register`, `/api/auth/login`,
`/api/auth/me`) of the multi-tenant CRM backend.

The database (accessed through drizzle in the source) is modelled as explicit
lists of rows plus id counters and a write log; each `await db....` call is a
pure function of that state.  Operations that can reject (throw) at a storage
call are modelled with an explicit fault parameter saying which storage call,
if any, throws; the JS `try/catch` wrappers become the corresponding branches.
-/

namespace Crm

/-- Organization row: the columns selected by the auth queries
(`id, name, subdomain, settings, isActive, createdAt, updatedAt`).
The `settings` json blob is kept opaque as a string. -/
structure Organization where
  id : Nat
  name : String
  subdomain : String
  settings : String
  isActive : Bool
  createdAt : Nat
  updatedAt : Nat
deriving Repr, DecidableEq

/-- User row: the columns selected by `authenticateUser`
(`id, username, email, password, fullName, phone, avatar, organizationId,
roleId, isActive, lastLogin, createdAt, updatedAt`). -/
structure User where
  id : Nat
  username : String
  email : String
  password : String
  fullName : Option String
  phone : Option String
  avatar : Option String
  organizationId : Nat
  roleId : Nat
  isActive : Bool
  lastLogin : Option Nat
  createdAt : Nat
  updatedAt : Nat
deriving Repr, DecidableEq

/-- Role row (`userRoles` table): `id, name, description, permissions,
organizationId`. -/
structure UserRole where
  id : Nat
  name : String
  description : Option String
  permissions : List String
  organizationId : Nat
deriving Repr, DecidableEq

/-- The `AuthUser` shape from the source: a `User` joined with its `Organization`,
with the `password` column stripped (the type has no password field, matching
the destructuring `const ⟨password: _, ...userWithoutPassword⟩ = userWithOrg`
and the password-less selects in `registerUser` and `loadUserContext`). -/
structure AuthUser where
  id : Nat
  username : String
  email : String
  fullName : Option String
  phone : Option String
  avatar : Option String
  organizationId : Nat
  roleId : Nat
  isActive : Bool
  lastLogin : Option Nat
  createdAt : Nat
  updatedAt : Nat
  organization : Organization
deriving Repr, DecidableEq

/-- Build the joined, password-stripped identity from a user row and its
organization row. -/
def toAuthUser (u : User) (o : Organization) : AuthUser :=
  { id := u.id, username := u.username, email := u.email, fullName := u.fullName,
    phone := u.phone, avatar := u.avatar, organizationId := u.organizationId,
    roleId := u.roleId, isActive := u.isActive, lastLogin := u.lastLogin,
    createdAt := u.createdAt, updatedAt := u.updatedAt, organization := o }

/-- Observable write events issued against the database, in program order.
Used to state ordering properties of the multi-step registration flow. -/
inductive WriteEvent where
  | insertOrg (id : Nat) (name subdomain : String)
  | insertRole (id : Nat) (name : String) (permissions : List String)
      (organizationId : Nat)
  | insertUser (id : Nat) (email : String) (organizationId roleId : Nat)
  | updateLastLogin (userId : Nat) (now : Nat)
deriving Repr, DecidableEq

/-- Database state: the three tables touched by the auth core, fresh-id
counters for the serial primary keys, and the log of write events. -/
structure DB where
  users : List User
  organizations : List Organization
  userRoles : List UserRole
  nextOrgId : Nat
  nextRoleId : Nat
  nextUserId : Nat
  log : List WriteEvent
deriving Repr, DecidableEq

/-- The inner join
`from(users).innerJoin(organizations, eq(users.organizationId, organizations.id))`:
all pairs of a user row with an organization row of matching id, in row order. -/
def usersJoinOrganizations (db : DB) : List (User × Organization) :=
  db.users.flatMap fun u =>
    (db.organizations.filter fun o => o.id == u.organizationId).map fun o => (u, o)

/-- The `authenticateUser` lookup: join filtered by
`eq(users.email, email), eq(users.isActive, true), eq(organizations.isActive, true)`,
`limit 1`. -/
def authLookup (db : DB) (email : String) : Option (User × Organization) :=
  ((usersJoinOrganizations db).filter fun p =>
    p.1.email == email && p.1.isActive && p.2.isActive).head?

/-- The `loadUserContext` / `registerUser` re-fetch lookup: join filtered only
by `eq(users.id, uid)`, `limit 1` (no active-flag filter). -/
def findUserOrgById (db : DB) (uid : Nat) : Option (User × Organization) :=
  ((usersJoinOrganizations db).filter fun p => p.1.id == uid).head?

/-- The `requireRole` lookup: `select name, permissions from userRoles where
id = roleId limit 1` (modelled as returning the whole row; only `name` and
`permissions` are consulted). -/
def findRoleById (db : DB) (rid : Nat) : Option UserRole :=
  (db.userRoles.filter fun r => r.id == rid).head?

namespace CredentialStore

/-- Modelled from the spec: the Credential Store is the external `bcryptjs`
library (not part of this repository's sources).  Per the spec, `hash` is a
salted one-way transform (bcrypt cost 12) whose only promise is that
verification succeeds exactly for the hashed plaintext; it is modelled as an
injective tagging with the bcrypt prefix. -/
def hash (plaintext : String) : String :=
  "$2b$12$" ++ plaintext

/-- Modelled from the spec: `verify(plaintext, hash) -> bool` — comparison
that returns true exactly when `stored` is the hash of `plaintext`, false on
any mismatch or malformed hash.  It is a total function (never throws). -/
def verify (plaintext stored : String) : Bool :=
  stored == hash plaintext

end CredentialStore

namespace AuthService

/-- Source `AuthService.hashPassword`: delegates to the credential store
(bcrypt, salt rounds 12). -/
def hashPassword (password : String) : String :=
  CredentialStore.hash password

/-- Source `AuthService.comparePassword(password, hash)`: delegates to
`bcrypt.compare`. -/
def comparePassword (password hash : String) : Bool :=
  CredentialStore.verify password hash

/-- Which storage call inside `authenticateUser`, if any, throws. -/
inductive AuthFault where
  | noFault
  | lookupFails
  | updateFails
deriving Repr, DecidableEq

/-- Source `AuthService.authenticateUser(email, password)`.

Control flow of the source: the filtered join lookup (`limit 1`); no row →
`null`; password check via `comparePassword`; mismatch → `null`; then the
last-login `update ... set lastLogin = new Date()`; then return the fetched
row with `password` stripped.  The whole body is wrapped in `try/catch` with
`catch → return null`, so a throwing storage call (lookup or update) yields
`null` with no further writes.  Returns the result together with the updated
database state. -/
def authenticateUser (db : DB) (fault : AuthFault) (now : Nat)
    (email password : String) : Option AuthUser × DB :=
  if fault = AuthFault.lookupFails then (none, db)
  else
    match authLookup db email with
    | none => (none, db)
    | some (u, o) =>
      if comparePassword password u.password then
        if fault = AuthFault.updateFails then (none, db)
        else
          let db' : DB :=
            { db with
              users := db.users.map fun v =>
                if v.id == u.id then { v with lastLogin := some now } else v,
              log := db.log ++ [WriteEvent.updateLastLogin u.id now] }
          (some (toAuthUser u o), db')
      else (none, db)

/-- The argument record of `registerUser` (`userData`).  Optional JS fields
are `Option String`. -/
structure RegisterData where
  email : String
  password : String
  username : String
  fullName : Option String
  organizationName : Option String
  organizationSubdomain : Option String
deriving Repr, DecidableEq

/-- JS truthiness of an optional string field (`undefined` and `""` are
falsy). -/
def truthy : Option String → Bool
  | none => false
  | some s => !(s == "")

/-- Which storage call inside `registerUser`, if any, throws. -/
inductive RegFault where
  | noFault
  | atDupCheck
  | atOrgInsert
  | atRoleInsert
  | atAdminLookup
  | atUserInsert
  | atRefetch
deriving Repr, DecidableEq

/-- Source `AuthService.registerUser(userData)`.

Control flow of the source: hash the password; select an existing user by
email (`limit 1`), and if one exists `throw` (duplicate email); if
`organizationName && organizationSubdomain` insert the organization and then
the default `admin` role with permissions `['*']` for it, else `throw`;
select the admin role of the new organization; insert the user referencing
the organization and that role; re-fetch the user joined with its
organization (password column not selected).  The whole body is in
`try/catch` with `catch → return null`, so every `throw` — including a
throwing storage call, after which earlier writes remain (no transaction) —
yields `null`.  Schema column defaults (`isActive: true`, empty settings,
zero timestamps) are modelled from the spec since `@shared/schema` is not in
the sources. -/
def registerUser (db : DB) (fault : RegFault) (data : RegisterData) :
    Option AuthUser × DB :=
  let hashedPassword := hashPassword data.password
  if fault = RegFault.atDupCheck then (none, db)
  else if (db.users.find? fun u => u.email == data.email).isSome then (none, db)
  else if truthy data.organizationName && truthy data.organizationSubdomain then
    if fault = RegFault.atOrgInsert then (none, db)
    else
      let organizationId := db.nextOrgId
      let newOrg : Organization :=
        { id := organizationId, name := data.organizationName.getD "",
          subdomain := data.organizationSubdomain.getD "", settings := "",
          isActive := true, createdAt := 0, updatedAt := 0 }
      let db1 : DB :=
        { db with
          organizations := db.organizations ++ [newOrg],
          nextOrgId := organizationId + 1,
          log := db.log ++
            [WriteEvent.insertOrg organizationId newOrg.name newOrg.subdomain] }
      if fault = RegFault.atRoleInsert then (none, db1)
      else
        let roleId := db1.nextRoleId
        let newRole : UserRole :=
          { id := roleId, name := "admin",
            description := some "Organization Administrator",
            permissions := ["*"], organizationId := organizationId }
        let db2 : DB :=
          { db1 with
            userRoles := db1.userRoles ++ [newRole],
            nextRoleId := roleId + 1,
            log := db1.log ++
              [WriteEvent.insertRole roleId "admin" ["*"] organizationId] }
        if fault = RegFault.atAdminLookup then (none, db2)
        else
          match db2.userRoles.find? fun r =>
              r.organizationId == organizationId && r.name == "admin" with
          | none => (none, db2)
          | some adminRole =>
            if fault = RegFault.atUserInsert then (none, db2)
            else
              let uid := db2.nextUserId
              let newUser : User :=
                { id := uid, username := data.username, email := data.email,
                  password := hashedPassword, fullName := data.fullName,
                  phone := none, avatar := none,
                  organizationId := organizationId, roleId := adminRole.id,
                  isActive := true, lastLogin := none, createdAt := 0,
                  updatedAt := 0 }
              let db3 : DB :=
                { db2 with
                  users := db2.users ++ [newUser],
                  nextUserId := uid + 1,
                  log := db2.log ++
                    [WriteEvent.insertUser uid data.email organizationId
                      adminRole.id] }
              if fault = RegFault.atRefetch then (none, db3)
              else
                match findUserOrgById db3 uid with
                | none => (none, db3)
                | some (u, o) => (some (toAuthUser u o), db3)
  else (none, db)

end AuthService

/-- Result of an Express middleware: either `next()` was called or a response
`res.status(s).json({message})` was sent. -/
inductive MwResult where
  | next
  | respond (status : Nat) (message : String)
deriving Repr, DecidableEq

/-- The HTTP status carried by a middleware response, if any. -/
def MwResult.statusOf : MwResult → Option Nat
  | MwResult.next => none
  | MwResult.respond s _ => some s

/-- Whether a middleware response is a server-error (5xx) response. -/
def MwResult.isServerError : MwResult → Bool
  | MwResult.next => false
  | MwResult.respond s _ => 500 ≤ s

/-- Source `requireAuth`: rejects with 401 when the session carries no user id. -/
def requireAuth (sessionUserId : Option Nat) : MwResult :=
  match sessionUserId with
  | none => MwResult.respond 401 "Authentication required"
  | some _ => MwResult.next

/-- Source `requireRole(requiredRoles)`: 401 when no identity is attached to the
request; otherwise a fresh role lookup by `req.user.roleId` (a throwing
lookup is caught and answered with 500 `Authorization error`); no role →
403 `No role found`; wildcard `'*'` in the permission list → pass; otherwise
pass iff some required role equals the role name or occurs in the permission
list, else 403 `Insufficient permissions`. -/
def requireRole (requiredRoles : List String) (db : DB)
    (reqUser : Option AuthUser) (lookupFails : Bool) : MwResult :=
  match reqUser with
  | none => MwResult.respond 401 "Authentication required"
  | some user =>
    if lookupFails then MwResult.respond 500 "Authorization error"
    else
      match findRoleById db user.roleId with
      | none => MwResult.respond 403 "No role found"
      | some userRole =>
        if userRole.permissions.contains "*" then MwResult.next
        else if requiredRoles.any fun role =>
            userRole.name == role || userRole.permissions.contains role then
          MwResult.next
        else MwResult.respond 403 "Insufficient permissions"

/-- Source `loadUserContext`: when the session carries a user id, re-fetch the
user/organization join by id only; attach the identity when both active
flags are set, otherwise (no row, a stale flag, or a throwing fetch —
caught) delete the session's user id.  Returns the session's user id after
the middleware and the attached identity (`req.user`). -/
def loadUserContext (db : DB) (fetchFails : Bool)
    (sessionUserId : Option Nat) : Option Nat × Option AuthUser :=
  match sessionUserId with
  | none => (none, none)
  | some uid =>
    if fetchFails then (none, none)
    else
      match findUserOrgById db uid with
      | none => (none, none)
      | some (u, o) =>
        if u.isActive && o.isActive then (some uid, some (toAuthUser u o))
        else (none, none)

/-- JSON values, for stating what the HTTP response bodies contain. -/
inductive Json where
  | str (s : String)
  | num (n : Nat)
  | bool (b : Bool)
  | null
  | obj (fields : List (String × Json))
deriving Repr

mutual

/-- Whether a key occurs anywhere (at any nesting depth) in a JSON value. -/
def Json.hasKey (k : String) : Json → Bool
  | Json.obj fields => Json.hasKeyIn k fields
  | _ => false

/-- Whether a key occurs anywhere in a JSON object field list. -/
def Json.hasKeyIn (k : String) : List (String × Json) → Bool
  | [] => false
  | f :: rest => f.1 == k || Json.hasKey k f.2 || Json.hasKeyIn k rest

end

/-- Serialization of an optional string column (`null` when absent). -/
def optStrJson : Option String → Json
  | none => Json.null
  | some s => Json.str s

/-- Serialization of an optional timestamp column (`null` when absent). -/
def optNumJson : Option Nat → Json
  | none => Json.null
  | some n => Json.num n

/-- JSON form of an organization row, as the drizzle select returns it. -/
def Organization.toJson (o : Organization) : Json :=
  Json.obj [("id", Json.num o.id), ("name", Json.str o.name),
    ("subdomain", Json.str o.subdomain), ("settings", Json.str o.settings),
    ("isActive", Json.bool o.isActive), ("createdAt", Json.num o.createdAt),
    ("updatedAt", Json.num o.updatedAt)]

/-- JSON form of a full `AuthUser` (the password-stripped user spread joined
with its organization) — what serializing `req.user` or an identity returned
by the resolver would emit. -/
def AuthUser.toJson (au : AuthUser) : Json :=
  Json.obj [("id", Json.num au.id), ("username", Json.str au.username),
    ("email", Json.str au.email), ("fullName", optStrJson au.fullName),
    ("phone", optStrJson au.phone), ("avatar", optStrJson au.avatar),
    ("organizationId", Json.num au.organizationId),
    ("roleId", Json.num au.roleId), ("isActive", Json.bool au.isActive),
    ("lastLogin", optNumJson au.lastLogin),
    ("createdAt", Json.num au.createdAt),
    ("updatedAt", Json.num au.updatedAt),
    ("organization", au.organization.toJson)]

/-- The `{ message }` error body used by the routes. -/
def msgJson (m : String) : Json :=
  Json.obj [("message", Json.str m)]

/-- The success body of the register/login/me routes:
`{ user: { id, email, username, fullName, organization } }`. -/
def authUserResponseJson (au : AuthUser) : Json :=
  Json.obj [("user", Json.obj [("id", Json.num au.id),
    ("email", Json.str au.email), ("username", Json.str au.username),
    ("fullName", optStrJson au.fullName),
    ("organization", au.organization.toJson)])]

/-- An HTTP response of the auth routes: status, JSON body, the session's
user id after the handler, and the database state after the handler. -/
structure RouteResult where
  status : Nat
  body : Json
  sessionUserId : Option Nat
  db : DB
deriving Repr

/-- The request body of `POST /api/auth/register` (JS fields may be
absent). -/
structure RegisterBody where
  email : Option String
  password : Option String
  username : Option String
  fullName : Option String
  organizationName : Option String
  organizationSubdomain : Option String
deriving Repr, DecidableEq

open AuthService in
/-- The `POST /api/auth/register` handler: 400 when email/password/username
or the organization fields are falsy; then `registerUser`; `null` → 400
`Registration failed`; otherwise bind the session to the new user id and
answer 200 with the `{user: ...}` body. -/
def registerRoute (db : DB) (fault : RegFault) (sessionUserId : Option Nat)
    (body : RegisterBody) : RouteResult :=
  if !(truthy body.email && truthy body.password && truthy body.username) then
    { status := 400,
      body := msgJson "Email, password, and username are required",
      sessionUserId := sessionUserId, db := db }
  else if !(truthy body.organizationName && truthy body.organizationSubdomain)
      then
    { status := 400,
      body := msgJson "Organization name and subdomain are required",
      sessionUserId := sessionUserId, db := db }
  else
    match registerUser db fault
      { email := body.email.getD "", password := body.password.getD "",
        username := body.username.getD "", fullName := body.fullName,
        organizationName := body.organizationName,
        organizationSubdomain := body.organizationSubdomain } with
    | (none, db') =>
      { status := 400, body := msgJson "Registration failed",
        sessionUserId := sessionUserId, db := db' }
    | (some user, db') =>
      { status := 200, body := authUserResponseJson user,
        sessionUserId := some user.id, db := db' }

open AuthService in
/-- The `POST /api/auth/login` handler: 400 when email or password is falsy;
then `authenticateUser`; `null` → 401 `Invalid credentials`; otherwise bind
the session to the user id and answer 200 with the `{user: ...}` body. -/
def loginRoute (db : DB) (fault : AuthFault) (now : Nat)
    (sessionUserId : Option Nat) (email password : Option String) :
    RouteResult :=
  if !(truthy email && truthy password) then
    { status := 400, body := msgJson "Email and password are required",
      sessionUserId := sessionUserId, db := db }
  else
    match authenticateUser db fault now (email.getD "") (password.getD "") with
    | (none, db') =>
      { status := 401, body := msgJson "Invalid credentials",
        sessionUserId := sessionUserId, db := db' }
    | (some user, db') =>
      { status := 200, body := authUserResponseJson user,
        sessionUserId := some user.id, db := db' }

/-- The `GET /api/auth/me` handler behind `requireAuth`: 401 without a
session-bound user id; 401 `Not authenticated` when no identity was attached
by `loadUserContext`; otherwise 200 with the `{user: ...}` body. -/
def meRoute (sessionUserId : Option Nat) (reqUser : Option AuthUser) :
    Nat × Json :=
  match requireAuth sessionUserId with
  | MwResult.respond s m => (s, msgJson m)
  | MwResult.next =>
    match reqUser with
    | some u => (200, authUserResponseJson u)
    | none => (401, msgJson "Not authenticated")

end Crm

namespace Crm

open AuthService

/-! ## Concrete instances used by witnesses and counterexamples -/

/-- A concrete active user whose stored hash is the hash of `pw123456`. -/
def aliceU : User :=
  { id := 1, username := "a", email := "a@x.com",
    password := CredentialStore.hash "pw123456", fullName := some "Alice",
    phone := none, avatar := none, organizationId := 10, roleId := 100,
    isActive := true, lastLogin := none, createdAt := 0, updatedAt := 0 }

/-- A concrete active organization. -/
def acmeO : Organization :=
  { id := 10, name := "Acme", subdomain := "acme", settings := "",
    isActive := true, createdAt := 0, updatedAt := 0 }

/-- A concrete database holding `aliceU` and `acmeO` and no roles. -/
def db1 : DB :=
  { users := [aliceU], organizations := [acmeO], userRoles := [],
    nextOrgId := 11, nextRoleId := 101, nextUserId := 2, log := [] }

/-- A role whose permission list holds the wildcard but whose name is not
`admin`. -/
def wildRole : UserRole :=
  { id := 100, name := "boss", description := none, permissions := ["*"],
    organizationId := 10 }

/-- A role named exactly `admin` with no permissions. -/
def adminNamedRole : UserRole :=
  { id := 101, name := "admin", description := none, permissions := [],
    organizationId := 10 }

/-- A role named `viewer` with permissions `["read"]`. -/
def viewerRole : UserRole :=
  { id := 102, name := "viewer", description := none, permissions := ["read"],
    organizationId := 10 }

/-- A database holding the three sample roles. -/
def dbRoles : DB :=
  { users := [], organizations := [], userRoles :=
      [wildRole, adminNamedRole, viewerRole],
    nextOrgId := 11, nextRoleId := 103, nextUserId := 1, log := [] }

/-- A sample attached identity pointing at a given role id. -/
def sampleAU (rid : Nat) : AuthUser :=
  { id := 1, username := "a", email := "a@x.com", fullName := none,
    phone := none, avatar := none, organizationId := 10, roleId := rid,
    isActive := true, lastLogin := none, createdAt := 0, updatedAt := 0,
    organization := acmeO }

/-- An empty database with fresh id counters. -/
def db0 : DB :=
  { users := [], organizations := [], userRoles := [],
    nextOrgId := 1, nextRoleId := 1, nextUserId := 1, log := [] }

/-- A concrete registration payload with organization data. -/
def regData0 : RegisterData :=
  { email := "a@x.com", password := "pw123456", username := "a",
    fullName := none, organizationName := some "Acme",
    organizationSubdomain := some "acme" }

/-! ## Helper lemmas -/

/-- Membership in the users/organizations inner join. -/
theorem mem_usersJoinOrganizations {db : DB} {p : User × Organization} :
    p ∈ usersJoinOrganizations db ↔
      p.1 ∈ db.users ∧ p.2 ∈ db.organizations ∧ p.2.id = p.1.organizationId := by
  obtain ⟨u, o⟩ := p
  simp only [usersJoinOrganizations, List.mem_flatMap, List.mem_map,
    List.mem_filter, beq_iff_eq]
  constructor
  · rintro ⟨u', hu', o', ⟨ho', hid⟩, heq⟩
    obtain ⟨rfl, rfl⟩ := Prod.mk.injEq .. ▸ heq
    exact ⟨hu', ho', hid⟩
  · rintro ⟨hu, ho, hid⟩
    exact ⟨u, hu, o, ⟨ho, hid⟩, rfl⟩

/-- Two members of a list with pairwise-distinct emails and the same email
are the same row. -/
theorem eq_of_pairwise_email {l : List User}
    (hp : l.Pairwise fun a b => a.email ≠ b.email) {a b : User}
    (ha : a ∈ l) (hb : b ∈ l) (he : a.email = b.email) : a = b := by
  induction l with
  | nil => cases ha
  | cons x xs ih =>
    obtain ⟨hx, hxs⟩ := List.pairwise_cons.mp hp
    rcases List.mem_cons.mp ha with rfl | ha'
    · rcases List.mem_cons.mp hb with rfl | hb'
      · rfl
      · exact absurd he (hx _ hb')
    · rcases List.mem_cons.mp hb with rfl | hb'
      · exact absurd he.symm (hx _ ha')
      · exact ih hxs ha' hb'

/-- Lemma: `find?` on an appended list when the first part has no hit. -/
theorem find?_append_left_none {α} {p : α → Bool} {l₁ : List α}
    (l₂ : List α) (h : l₁.find? p = none) :
    (l₁ ++ l₂).find? p = l₂.find? p := by
  rw [List.find?_append, h, Option.none_or]

/-! ## Claim theorems -/

/-- C9: `verify(plaintext, hash)` (reached through
`AuthService.comparePassword`) returns `false` whenever the stored string is
not the hash of the plaintext — which covers both a mismatching and a
malformed stored hash; as a total Lean function it never throws. -/
theorem comparePassword_false_on_mismatch (plaintext stored : String)
    (h : stored ≠ CredentialStore.hash plaintext) :
    comparePassword plaintext stored = false := by
  simpa [comparePassword, CredentialStore.verify, beq_eq_false_iff_ne] using h

/-- Witness for C9 at a concrete malformed stored hash. -/
theorem comparePassword_false_on_mismatch_witness :
    ("not-a-bcrypt-hash" : String) ≠ CredentialStore.hash "pw123456" ∧
      comparePassword "pw123456" "not-a-bcrypt-hash" = false :=
  ⟨by decide, comparePassword_false_on_mismatch "pw123456" "not-a-bcrypt-hash"
    (by decide)⟩

/-- C3 (counterexample): the last-login update of `authenticateUser` is not
best-effort.  On a concrete database where the email lookup succeeds and the
password verifies, a failing last-login write makes `authenticateUser` return
`none` instead of the identity: the `catch` swallows the storage error into a
failed authentication. -/
theorem authenticateUser_updateFail_counterexample :
    authLookup db1 "a@x.com" = some (aliceU, acmeO) ∧
      comparePassword "pw123456" aliceU.password = true ∧
      (authenticateUser db1 AuthFault.updateFails 5 "a@x.com" "pw123456").1 =
        none := by
  decide

/-- C3 (amended): for every user whose email lookup succeeds and whose
password verifies, a failure of the last-login write makes `authenticateUser`
fail — it returns `none` and leaves the database unchanged (the storage error
itself is swallowed, but the authentication does not return the identity). -/
theorem authenticateUser_updateFail_returns_none (db : DB) (now : Nat)
    (email password : String) (u : User) (o : Organization)
    (hl : authLookup db email = some (u, o))
    (hp : comparePassword password u.password = true) :
    authenticateUser db AuthFault.updateFails now email password =
      (none, db) := by
  simp [authenticateUser, hl, hp]

/-- Witness for the amended C3 on a concrete database. -/
theorem authenticateUser_updateFail_returns_none_witness :
    authLookup db1 "a@x.com" = some (aliceU, acmeO) ∧
      comparePassword "pw123456" aliceU.password = true ∧
      authenticateUser db1 AuthFault.updateFails 5 "a@x.com" "pw123456" =
        (none, db1) :=
  ⟨by decide, by decide,
    authenticateUser_updateFail_returns_none db1 5 "a@x.com" "pw123456"
      aliceU acmeO (by decide) (by decide)⟩

/-- On a duplicate email, `registerUser` returns `none` with the database
untouched (shared between the duplicate-email and never-throws claims). -/
theorem registerUser_eq_of_duplicate (db : DB) (fault : RegFault)
    (data : RegisterData) (h : ∃ u ∈ db.users, u.email = data.email) :
    registerUser db fault data = (none, db) := by
  obtain ⟨u, hu, he⟩ := h
  have hfind : (db.users.find? fun v => v.email == data.email).isSome := by
    rw [List.find?_isSome]
    exact ⟨u, hu, by simp [he]⟩
  by_cases hf : fault = RegFault.atDupCheck
  · simp [registerUser, hf]
  · simp [registerUser, hf, hfind]

/-- C5: when some stored user already has the given email, `registerUser`
fails (returns `none`) and the database — rows, id counters and write log —
is completely unchanged: no second Organization, Role, or User row is
created.  This holds whatever storage faults would have occurred later. -/
theorem registerUser_duplicate_email (db : DB) (fault : RegFault)
    (data : RegisterData) (h : ∃ u ∈ db.users, u.email = data.email) :
    registerUser db fault data = (none, db) :=
  registerUser_eq_of_duplicate db fault data h

/-- Witness for C5 on a concrete database already holding the email. -/
theorem registerUser_duplicate_email_witness :
    registerUser db1 RegFault.noFault regData0 = (none, db1) :=
  registerUser_duplicate_email db1 RegFault.noFault regData0
    ⟨aliceU, by decide, by decide⟩

/-- C7 (counterexample): on a concrete database with no role row for the
attached identity's role reference, `requireRole` answers
403 `No role found` — a response with the same 403 status as the
permission-denied response (`Insufficient permissions`) and not a
server-error (5xx) status, so the no-role case is not treated as a server
misconfiguration distinct in kind from a user error. -/
theorem requireRole_noRole_counterexample :
    requireRole ["admin"] db1 (some (sampleAU 100)) false =
        MwResult.respond 403 "No role found" ∧
      MwResult.statusOf (requireRole ["admin"] db1 (some (sampleAU 100)) false) =
        MwResult.statusOf (MwResult.respond 403 "Insufficient permissions") ∧
      MwResult.isServerError
        (requireRole ["admin"] db1 (some (sampleAU 100)) false) = false := by
  decide

/-- C7 (amended): when the role lookup finds no role for the attached
identity, `requireRole` fails with 403 `No role found` — distinguishable from
the permission-denied failure by its message, but carried with the same 403
client-error status, not a server-error status. -/
theorem requireRole_noRole (allowed : List String) (db : DB) (user : AuthUser)
    (h : findRoleById db user.roleId = none) :
    requireRole allowed db (some user) false =
        MwResult.respond 403 "No role found" ∧
      requireRole allowed db (some user) false ≠
        MwResult.respond 403 "Insufficient permissions" ∧
      MwResult.isServerError (requireRole allowed db (some user) false) =
        false := by
  refine ⟨by simp [requireRole, h], ?_, by simp [requireRole, h, MwResult.isServerError]⟩
  simp [requireRole, h]

/-- Witness for the amended C7 on a concrete database with no matching
role. -/
theorem requireRole_noRole_witness :
    requireRole ["viewer"] db1 (some (sampleAU 100)) false =
        MwResult.respond 403 "No role found" ∧
      requireRole ["viewer"] db1 (some (sampleAU 100)) false ≠
        MwResult.respond 403 "Insufficient permissions" ∧
      MwResult.isServerError (requireRole ["viewer"] db1 (some (sampleAU 100))
        false) = false :=
  requireRole_noRole ["viewer"] db1 (sampleAU 100) (by decide)

/-- C4: with a session-bound user id, `loadUserContext` attaches an identity
exactly when the by-id fetch (which filters only by identifier) returns a row
whose user and organization are both active — the attached identity being
that row, password-stripped; in that case the session binding is kept, and in
every other case it is cleared and the request proceeds unauthenticated. -/
theorem loadUserContext_spec (db : DB) (uid : Nat) :
    ((loadUserContext db false (some uid)).2.isSome = true ↔
      ∃ u o, findUserOrgById db uid = some (u, o) ∧ u.isActive = true ∧
        o.isActive = true) ∧
    ((loadUserContext db false (some uid)).2.isSome = true →
      ∀ u o, findUserOrgById db uid = some (u, o) →
        (loadUserContext db false (some uid)).2 = some (toAuthUser u o)) ∧
    ((loadUserContext db false (some uid)).1 =
      if (loadUserContext db false (some uid)).2.isSome then some uid
      else none) := by
  unfold loadUserContext
  cases hfetch : findUserOrgById db uid with
  | none => simp [hfetch]
  | some p =>
    obtain ⟨u, o⟩ := p
    by_cases hu : u.isActive = true
    · by_cases ho : o.isActive = true
      · exact ⟨by simp [hfetch, hu, ho]; exact ⟨u, o, ⟨rfl, rfl⟩, hu, ho⟩,
          by simp [hfetch, hu, ho], by simp [hfetch, hu, ho]⟩
      · simp [hfetch, hu, ho]
    · simp [hfetch, hu]

/-- C2: with an attached identity whose role lookup yields `role`,
`requireRole(allowedRoleNames)` passes exactly when the role's permission
list holds the wildcard `*` (whatever `allowedRoleNames`), or some allowed
name equals the role's name or occurs literally in the permission list; in
every other case it answers the permission-denied failure
403 `Insufficient permissions`. -/
theorem requireRole_pass_iff (allowed : List String) (db : DB)
    (user : AuthUser) (role : UserRole)
    (h : findRoleById db user.roleId = some role) :
    (requireRole allowed db (some user) false = MwResult.next ↔
      "*" ∈ role.permissions ∨
        ∃ n ∈ allowed, role.name = n ∨ n ∈ role.permissions) ∧
    (requireRole allowed db (some user) false ≠ MwResult.next →
      requireRole allowed db (some user) false =
        MwResult.respond 403 "Insufficient permissions") := by
  by_cases hw : role.permissions.contains "*" = true
  · have hval : requireRole allowed db (some user) false = MwResult.next := by
      simp only [requireRole, h]
      rw [if_neg (by simp), if_pos hw]
    have hwm : "*" ∈ role.permissions := by simpa using hw
    exact ⟨by rw [hval]; exact iff_of_true rfl (Or.inl hwm),
      fun hne => absurd hval hne⟩
  · by_cases ha : (allowed.any fun r =>
        role.name == r || role.permissions.contains r) = true
    · have hval : requireRole allowed db (some user) false = MwResult.next := by
        simp only [requireRole, h]
        rw [if_neg (by simp), if_neg hw, if_pos ha]
      have hex : ∃ n ∈ allowed, role.name = n ∨ n ∈ role.permissions := by
        simpa [List.any_eq_true] using ha
      exact ⟨by rw [hval]; exact iff_of_true rfl (Or.inr hex),
        fun hne => absurd hval hne⟩
    · have hwm : ¬ "*" ∈ role.permissions := by simpa using hw
      have hex : ¬ ∃ n ∈ allowed, role.name = n ∨ n ∈ role.permissions := by
        simpa [List.any_eq_true] using ha
      have hval : requireRole allowed db (some user) false =
          MwResult.respond 403 "Insufficient permissions" := by
        simp only [requireRole, h]
        rw [if_neg (by simp), if_neg hw, if_neg ha]
      refine ⟨?_, fun _ => hval⟩
      rw [hval]
      constructor
      · intro hc
        exact MwResult.noConfusion hc
      · rintro (hc | hc)
        · exact absurd hc hwm
        · exact absurd hc hex

/-- Witness for C2: with `allowedRoleNames = ["admin"]`, a role with
permissions `["*"]` passes whatever its name, a role named exactly `admin`
passes, and a role named `viewer` with permissions `["read"]` is denied. -/
theorem requireRole_pass_iff_witness :
    requireRole ["admin"] dbRoles (some (sampleAU 100)) false =
        MwResult.next ∧
      requireRole ["admin"] dbRoles (some (sampleAU 101)) false =
        MwResult.next ∧
      requireRole ["admin"] dbRoles (some (sampleAU 102)) false =
        MwResult.respond 403 "Insufficient permissions" :=
  ⟨(requireRole_pass_iff ["admin"] dbRoles (sampleAU 100) wildRole
      (by decide)).1.mpr (by decide),
    (requireRole_pass_iff ["admin"] dbRoles (sampleAU 101) adminNamedRole
      (by decide)).1.mpr (by decide),
    (requireRole_pass_iff ["admin"] dbRoles (sampleAU 102) viewerRole
      (by decide)).2
      (fun hn =>
        absurd ((requireRole_pass_iff ["admin"] dbRoles (sampleAU 102)
          viewerRole (by decide)).1.mp hn) (by decide))⟩

/-- C1: with no storage fault, `authenticateUser` returns an identity (the
password-stripped user joined with its organization) exactly when some stored
user row has exactly the given email, is active, belongs to an active
organization, and its stored hash verifies against the given password;
otherwise it returns `none`.  Stated under the data-model invariant that
stored emails are unique. -/
theorem authenticateUser_success_iff (db : DB) (now : Nat)
    (email password : String)
    (huniq : db.users.Pairwise fun a b => a.email ≠ b.email) :
    (∃ au, (authenticateUser db AuthFault.noFault now email password).1 =
        some au) ↔
      ∃ u ∈ db.users, ∃ o ∈ db.organizations, o.id = u.organizationId ∧
        u.email = email ∧ u.isActive = true ∧ o.isActive = true ∧
        comparePassword password u.password = true := by
  have hred : (authenticateUser db AuthFault.noFault now email password).1 =
      match authLookup db email with
      | none => none
      | some (u, o) =>
        if comparePassword password u.password then some (toAuthUser u o)
        else none := by
    unfold authenticateUser
    cases authLookup db email with
    | none => rfl
    | some p =>
      obtain ⟨u, o⟩ := p
      by_cases hc : comparePassword password u.password = true
      · simp [hc]
      · simp [hc]
  cases hl : authLookup db email with
  | none =>
    have hval : (authenticateUser db AuthFault.noFault now email password).1 =
        none := by rw [hred, hl]
    have hnil : ((usersJoinOrganizations db).filter fun p =>
        p.1.email == email && p.1.isActive && p.2.isActive) = [] :=
      List.head?_eq_none_iff.mp hl
    rw [hval]
    constructor
    · rintro ⟨au, hau⟩
      cases hau
    · rintro ⟨u, hu, o, ho, hid, hem, hua, hoa, _⟩
      have hmem : (u, o) ∈ (usersJoinOrganizations db).filter fun p =>
          p.1.email == email && p.1.isActive && p.2.isActive := by
        rw [List.mem_filter]
        exact ⟨mem_usersJoinOrganizations.mpr ⟨hu, ho, hid⟩,
          by simp [hem, hua, hoa]⟩
      rw [hnil] at hmem
      cases hmem
  | some p =>
    obtain ⟨u, o⟩ := p
    have hl' : ((usersJoinOrganizations db).filter fun p =>
        p.1.email == email && p.1.isActive && p.2.isActive).head? =
        some (u, o) := hl
    have hmem : (u, o) ∈ (usersJoinOrganizations db).filter fun p =>
        p.1.email == email && p.1.isActive && p.2.isActive :=
      List.mem_of_mem_head? (Option.mem_def.mpr hl')
    obtain ⟨hjoin, hpred⟩ := List.mem_filter.mp hmem
    obtain ⟨hu, ho, hid⟩ := mem_usersJoinOrganizations.mp hjoin
    simp only [Bool.and_eq_true, beq_iff_eq] at hpred
    obtain ⟨⟨hem, hua⟩, hoa⟩ := hpred
    by_cases hcp : comparePassword password u.password = true
    · have hval : (authenticateUser db AuthFault.noFault now email password).1 =
          some (toAuthUser u o) := by
        rw [hred, hl]
        show (if comparePassword password u.password = true
          then some (toAuthUser u o) else none) = some (toAuthUser u o)
        rw [if_pos hcp]
      rw [hval]
      constructor
      · intro _
        exact ⟨u, hu, o, ho, hid, hem, hua, hoa, hcp⟩
      · intro _
        exact ⟨toAuthUser u o, rfl⟩
    · have hval : (authenticateUser db AuthFault.noFault now email password).1 =
          none := by
        rw [hred, hl]
        show (if comparePassword password u.password = true
          then some (toAuthUser u o) else none) = none
        rw [if_neg hcp]
      rw [hval]
      constructor
      · rintro ⟨au, hau⟩
        cases hau
      · rintro ⟨u', hu', o', ho', hid', hem', hua', hoa', hcp'⟩
        have heq : u' = u :=
          eq_of_pairwise_email huniq hu' hu (hem'.trans hem.symm)
        rw [heq] at hcp'
        exact absurd hcp' hcp

/-- No key of an optional-string serialization. -/
theorem hasKey_optStrJson (k : String) (x : Option String) :
    Json.hasKey k (optStrJson x) = false := by
  cases x <;> simp [optStrJson, Json.hasKey]

/-- No key of an optional-number serialization. -/
theorem hasKey_optNumJson (k : String) (x : Option Nat) :
    Json.hasKey k (optNumJson x) = false := by
  cases x <;> simp [optNumJson, Json.hasKey]

/-- The serialized organization carries no `password` key. -/
theorem hasKey_password_orgJson (o : Organization) :
    Json.hasKey "password" (Organization.toJson o) = false := by
  simp [Organization.toJson, Json.hasKey, Json.hasKeyIn]

/-- The serialized full identity carries no `password` key. -/
theorem hasKey_password_authUserJson (au : AuthUser) :
    Json.hasKey "password" (AuthUser.toJson au) = false := by
  simp [AuthUser.toJson, Organization.toJson, Json.hasKey, Json.hasKeyIn,
    hasKey_optStrJson, hasKey_optNumJson]

/-- The `{user: ...}` success body carries no `password` key. -/
theorem hasKey_password_responseJson (au : AuthUser) :
    Json.hasKey "password" (authUserResponseJson au) = false := by
  simp [authUserResponseJson, Organization.toJson, Json.hasKey, Json.hasKeyIn,
    hasKey_optStrJson]

/-- The `{message}` error body carries no `password` key. -/
theorem hasKey_password_msgJson (m : String) :
    Json.hasKey "password" (msgJson m) = false := by
  simp [msgJson, Json.hasKey, Json.hasKeyIn]

/-- C6: no password hash escapes the Credential Store / Identity Resolver
boundary.  The identity type returned by `authenticateUser`/`registerUser`
and attached by `loadUserContext` (`AuthUser`) has no password field by
construction (the source strips it), so its full serialization carries no
`password` key; and every JSON body answered by the register, login and me
endpoints — success or error — carries no `password` key at any depth. -/
theorem no_password_outside_resolver :
    (∀ au : AuthUser, Json.hasKey "password" (AuthUser.toJson au) = false) ∧
    (∀ (db : DB) (fault : AuthFault) (now : Nat) (sid : Option Nat)
      (e p : Option String),
      Json.hasKey "password" (loginRoute db fault now sid e p).body = false) ∧
    (∀ (db : DB) (fault : RegFault) (sid : Option Nat) (body : RegisterBody),
      Json.hasKey "password" (registerRoute db fault sid body).body = false) ∧
    (∀ (sid : Option Nat) (ru : Option AuthUser),
      Json.hasKey "password" (meRoute sid ru).2 = false) := by
  refine ⟨hasKey_password_authUserJson, ?_, ?_, ?_⟩
  · intro db fault now sid e p
    unfold loginRoute
    split
    · exact hasKey_password_msgJson _
    · split
      · exact hasKey_password_msgJson _
      · exact hasKey_password_responseJson _
  · intro db fault sid body
    unfold registerRoute
    split
    · exact hasKey_password_msgJson _
    · split
      · exact hasKey_password_msgJson _
      · split
        · exact hasKey_password_msgJson _
        · exact hasKey_password_responseJson _
  · intro sid ru
    unfold meRoute
    split
    · exact hasKey_password_msgJson _
    · split
      · exact hasKey_password_responseJson _
      · exact hasKey_password_msgJson _

/-- The by-id join lookup on a database whose user/organization tables end in
a freshly inserted row pair finds exactly that pair. -/
theorem findUserOrgById_fresh (db2 : DB) (us : List User)
    (os : List Organization) (nu : User) (no : Organization)
    (hu : db2.users = us ++ [nu]) (ho : db2.organizations = os ++ [no])
    (hfu : ∀ u ∈ us, u.id ≠ nu.id)
    (hfo : ∀ o ∈ os, o.id ≠ nu.organizationId)
    (hno : no.id = nu.organizationId) :
    findUserOrgById db2 nu.id = some (nu, no) := by
  unfold findUserOrgById usersJoinOrganizations
  rw [hu, ho, List.flatMap_append, List.filter_append]
  have h1 : ((us.flatMap fun u =>
      ((os ++ [no]).filter fun o => o.id == u.organizationId).map
        fun o => (u, o)).filter fun p => p.1.id == nu.id) = [] := by
    rw [List.filter_eq_nil_iff]
    rintro ⟨u', o'⟩ hmem
    rw [List.mem_flatMap] at hmem
    obtain ⟨u, hu', hmm⟩ := hmem
    rw [List.mem_map] at hmm
    obtain ⟨o, _, heq⟩ := hmm
    obtain ⟨rfl, rfl⟩ := Prod.mk.injEq .. ▸ heq
    simp [hfu u hu']
  have h2 : ((os ++ [no]).filter fun o => o.id == nu.organizationId) = [no] := by
    rw [List.filter_append]
    have h3 : (os.filter fun o => o.id == nu.organizationId) = [] := by
      rw [List.filter_eq_nil_iff]
      intro o hmo
      simp [hfo o hmo]
    rw [h3]
    simp [hno]
  rw [h1]
  simp [h2]
  exact Or.inr ⟨hfo, hno⟩

/-- C8: a successful registration (new email, organization name and
subdomain present, no storage fault, fresh id counters) issues exactly three
writes in this order — the Organization insert, then the `admin` role insert
with wildcard permission `['*']` scoped to the new organization, then the
User insert — and the returned identity references the new organization and
that admin role. -/
theorem registerUser_creates_org_then_role_then_user (db : DB)
    (data : RegisterData)
    (hdup : ∀ u ∈ db.users, u.email ≠ data.email)
    (horg : truthy data.organizationName = true)
    (hsub : truthy data.organizationSubdomain = true)
    (hroleFresh : ∀ r ∈ db.userRoles, r.organizationId ≠ db.nextOrgId)
    (huserFresh : ∀ u ∈ db.users, u.id ≠ db.nextUserId)
    (horgFresh : ∀ o ∈ db.organizations, o.id ≠ db.nextOrgId) :
    ∃ au db', registerUser db RegFault.noFault data = (some au, db') ∧
      au.email = data.email ∧ au.organizationId = db.nextOrgId ∧
      au.roleId = db.nextRoleId ∧ au.organization.id = db.nextOrgId ∧
      au.organization.name = data.organizationName.getD "" ∧
      db'.log = db.log ++
        [WriteEvent.insertOrg db.nextOrgId (data.organizationName.getD "")
          (data.organizationSubdomain.getD ""),
         WriteEvent.insertRole db.nextRoleId "admin" ["*"] db.nextOrgId,
         WriteEvent.insertUser db.nextUserId data.email db.nextOrgId
           db.nextRoleId] := by
  have hfind : (db.users.find? fun v => v.email == data.email) = none := by
    rw [List.find?_eq_none]
    intro x hx
    simpa using hdup x hx
  have hrfind : ((db.userRoles ++
      [({ id := db.nextRoleId,
          name := "admin",
          description := some "Organization Administrator",
          permissions := ["*"],
          organizationId := db.nextOrgId } : UserRole)]).find?
      fun r => r.organizationId == db.nextOrgId && r.name == "admin") =
      some ({ id := db.nextRoleId,
              name := "admin",
              description := some "Organization Administrator",
              permissions := ["*"],
              organizationId := db.nextOrgId } : UserRole) := by
    rw [List.find?_append]
    have h1 : (db.userRoles.find?
        fun r => r.organizationId == db.nextOrgId && r.name == "admin") =
        none := by
      rw [List.find?_eq_none]
      intro r hr
      simp [hroleFresh r hr]
    rw [h1, Option.none_or]
    simp [List.find?]
  have hjoin := findUserOrgById_fresh
    { users := db.users ++
        [({ id := db.nextUserId,
            username := data.username,
            email := data.email,
            password := hashPassword data.password,
            fullName := data.fullName,
            phone := none,
            avatar := none,
            organizationId := db.nextOrgId,
            roleId := db.nextRoleId,
            isActive := true,
            lastLogin := none,
            createdAt := 0,
            updatedAt := 0 } : User)],
      organizations := db.organizations ++
        [({ id := db.nextOrgId,
            name := data.organizationName.getD "",
            subdomain := data.organizationSubdomain.getD "",
            settings := "",
            isActive := true,
            createdAt := 0,
            updatedAt := 0 } : Organization)],
      userRoles := db.userRoles ++
        [({ id := db.nextRoleId,
            name := "admin",
            description := some "Organization Administrator",
            permissions := ["*"],
            organizationId := db.nextOrgId } : UserRole)],
      nextOrgId := db.nextOrgId + 1, nextRoleId := db.nextRoleId + 1,
      nextUserId := db.nextUserId + 1,
      log := db.log ++
        [WriteEvent.insertOrg db.nextOrgId (data.organizationName.getD "")
          (data.organizationSubdomain.getD ""),
         WriteEvent.insertRole db.nextRoleId "admin" ["*"] db.nextOrgId,
         WriteEvent.insertUser db.nextUserId data.email db.nextOrgId
           db.nextRoleId] }
    db.users db.organizations _ _ rfl rfl huserFresh horgFresh rfl
  simp only [] at hjoin
  refine ⟨toAuthUser
      { id := db.nextUserId,
        username := data.username,
        email := data.email,
        password := hashPassword data.password,
        fullName := data.fullName,
        phone := none,
        avatar := none,
        organizationId := db.nextOrgId,
        roleId := db.nextRoleId,
        isActive := true,
        lastLogin := none,
        createdAt := 0,
        updatedAt := 0 }
      { id := db.nextOrgId,
        name := data.organizationName.getD "",
        subdomain := data.organizationSubdomain.getD "",
        settings := "",
        isActive := true,
        createdAt := 0,
        updatedAt := 0 },
    { users := db.users ++
        [({ id := db.nextUserId,
            username := data.username,
            email := data.email,
            password := hashPassword data.password,
            fullName := data.fullName,
            phone := none,
            avatar := none,
            organizationId := db.nextOrgId,
            roleId := db.nextRoleId,
            isActive := true,
            lastLogin := none,
            createdAt := 0,
            updatedAt := 0 } : User)],
      organizations := db.organizations ++
        [({ id := db.nextOrgId,
            name := data.organizationName.getD "",
            subdomain := data.organizationSubdomain.getD "",
            settings := "",
            isActive := true,
            createdAt := 0,
            updatedAt := 0 } : Organization)],
      userRoles := db.userRoles ++
        [({ id := db.nextRoleId,
            name := "admin",
            description := some "Organization Administrator",
            permissions := ["*"],
            organizationId := db.nextOrgId } : UserRole)],
      nextOrgId := db.nextOrgId + 1,
      nextRoleId := db.nextRoleId + 1,
      nextUserId := db.nextUserId + 1,
      log := db.log ++
        [WriteEvent.insertOrg db.nextOrgId (data.organizationName.getD "")
          (data.organizationSubdomain.getD ""),
         WriteEvent.insertRole db.nextRoleId "admin" ["*"] db.nextOrgId,
         WriteEvent.insertUser db.nextUserId data.email db.nextOrgId
           db.nextRoleId] },
    ?_, rfl, rfl, rfl, rfl, rfl, rfl⟩
  simp [registerUser, hfind, horg, hsub, hrfind, hjoin]
theorem authenticateUser_success_iff_witness :
    (∃ au, (authenticateUser db1 AuthFault.noFault 5 "a@x.com" "pw123456").1 =
        some au) ∧
      ¬ ∃ au, (authenticateUser db1 AuthFault.noFault 5 "a@x.com" "wrong").1 =
        some au :=
  ⟨(authenticateUser_success_iff db1 5 "a@x.com" "pw123456" (by decide)).mpr
      (by decide),
    fun hex =>
      absurd ((authenticateUser_success_iff db1 5 "a@x.com" "wrong"
        (by decide)).mp hex) (by decide)⟩

/-- Witness for C8: registering against an empty database issues the three
writes in order and returns an identity referencing the new rows. -/
theorem registerUser_creates_org_then_role_then_user_witness :
    ∃ au db', registerUser db0 RegFault.noFault regData0 = (some au, db') ∧
      au.email = regData0.email ∧ au.organizationId = db0.nextOrgId ∧
      au.roleId = db0.nextRoleId ∧ au.organization.id = db0.nextOrgId ∧
      au.organization.name = regData0.organizationName.getD "" ∧
      db'.log = db0.log ++
        [WriteEvent.insertOrg db0.nextOrgId (regData0.organizationName.getD "")
          (regData0.organizationSubdomain.getD ""),
         WriteEvent.insertRole db0.nextRoleId "admin" ["*"] db0.nextOrgId,
         WriteEvent.insertUser db0.nextUserId regData0.email db0.nextOrgId
           db0.nextRoleId] :=
  registerUser_creates_org_then_role_then_user db0 regData0 (by decide)
    (by decide) (by decide) (by decide) (by decide) (by decide)

/-- The concrete request body used by the C10 witness. -/
def regBody0 : RegisterBody :=
  { email := some "a@x.com", password := some "pw123456",
    username := some "a", fullName := none, organizationName := some "Acme",
    organizationSubdomain := some "acme" }

/-- C10: `registerUser` never throws — every failure cause (duplicate email,
missing organization name/subdomain, or a storage fault at any of its
writes or reads) is collapsed into a `none` result (first conjunct), and the
register endpoint answers every `none` from `registerUser` with the same 400
`Registration failed` client-error response, so the causes are
indistinguishable to the caller and no server-error response arises from
`registerUser` itself (second conjunct). -/
theorem registerUser_failures_collapse :
    (∀ (db : DB) (fault : RegFault) (data : RegisterData),
      ((∃ u ∈ db.users, u.email = data.email) ∨
        truthy data.organizationName = false ∨
        truthy data.organizationSubdomain = false ∨
        fault ≠ RegFault.noFault) →
      (registerUser db fault data).1 = none) ∧
    (∀ (db : DB) (fault : RegFault) (sid : Option Nat) (body : RegisterBody),
      truthy body.email = true → truthy body.password = true →
      truthy body.username = true → truthy body.organizationName = true →
      truthy body.organizationSubdomain = true →
      (registerUser db fault
        { email := body.email.getD "", password := body.password.getD "",
          username := body.username.getD "", fullName := body.fullName,
          organizationName := body.organizationName,
          organizationSubdomain := body.organizationSubdomain }).1 = none →
      (registerRoute db fault sid body).status = 400 ∧
      (registerRoute db fault sid body).body =
        msgJson "Registration failed") := by
  constructor
  · intro db fault data h
    have key : ∀ f : RegFault, f ≠ RegFault.noFault →
        (registerUser db f data).1 = none := by
      intro f hf
      by_cases h1 : (db.users.find? fun u => u.email == data.email).isSome =
        true
      · cases f <;> simp [registerUser, h1]
      · by_cases h2 : (truthy data.organizationName &&
            truthy data.organizationSubdomain) = true
        · cases f with
          | noFault => exact absurd rfl hf
          | atDupCheck => simp [registerUser, h1]
          | atOrgInsert => simp [registerUser, h1, h2]
          | atRoleInsert => simp [registerUser, h1, h2]
          | atAdminLookup => simp [registerUser, h1, h2]
          | atUserInsert =>
            simp only [registerUser]
            rw [if_neg (by simp), if_neg (by simp [h1]), if_pos h2,
              if_neg (by simp), if_neg (by simp), if_neg (by simp)]
            split <;> simp
          | atRefetch =>
            simp only [registerUser]
            rw [if_neg (by simp), if_neg (by simp [h1]), if_pos h2,
              if_neg (by simp), if_neg (by simp), if_neg (by simp)]
            split <;> simp
        · cases f <;> simp [registerUser, h1, h2]
    rcases h with hdup | horgF | hsubF | hfault
    · rw [registerUser_eq_of_duplicate db fault data hdup]
    · by_cases hf : fault = RegFault.noFault
      · subst hf
        by_cases h1 : (db.users.find? fun u => u.email == data.email).isSome =
          true
        · simp [registerUser, h1]
        · simp [registerUser, h1, horgF]
      · exact key fault hf
    · by_cases hf : fault = RegFault.noFault
      · subst hf
        by_cases h1 : (db.users.find? fun u => u.email == data.email).isSome =
          true
        · simp [registerUser, h1]
        · simp [registerUser, h1, hsubF]
      · exact key fault hf
    · exact key fault hfault
  · intro db fault sid body he hp hun hon hos hnone
    unfold registerRoute
    rw [if_neg (by simp [he, hp, hun]), if_neg (by simp [hon, hos])]
    rcases hreg : registerUser db fault
      { email := body.email.getD "", password := body.password.getD "",
        username := body.username.getD "", fullName := body.fullName,
        organizationName := body.organizationName,
        organizationSubdomain := body.organizationSubdomain } with ⟨r, db2⟩
    rw [hreg] at hnone
    simp only at hnone
    subst hnone
    simp [hreg]

/-- Witness for C10: a storage fault at the user insert yields `none`, and
the endpoint answers a duplicate email with 400 `Registration failed`. -/
theorem registerUser_failures_collapse_witness :
    (registerUser db1 RegFault.atUserInsert regData0).1 = none ∧
      (registerRoute db1 RegFault.noFault none regBody0).status = 400 ∧
      (registerRoute db1 RegFault.noFault none regBody0).body =
        msgJson "Registration failed" :=
  ⟨registerUser_failures_collapse.1 db1 RegFault.atUserInsert regData0
      (Or.inr (Or.inr (Or.inr (by decide)))),
    (registerUser_failures_collapse.2 db1 RegFault.noFault none regBody0
      (by decide) (by decide) (by decide) (by decide) (by decide)
      (by decide)).1,
    (registerUser_failures_collapse.2 db1 RegFault.noFault none regBody0
      (by decide) (by decide) (by decide) (by decide) (by decide)
      (by decide)).2⟩

end Crm
